import Mathlib

/-
Verification of src/src/rt/cpp/vobject.h (verona::rt::V, the managed-object
wrapper). The file is compile-time template machinery: capability
introspection (has_notified, has_finaliser, has_destructor), descriptor
synthesis (V::desc), allocation routing (the operator new overloads),
inert deallocation (the operator delete overloads) and compile-time
well-formedness checks (the static asserts, the deleted array forms).

The shallow embedding models an instantiating user type T by the
compile-time facts the wrapper inspects, each operator new body by the
sequence of collaborator calls it performs, each operator delete body as a
state transformer, and each static assert as a boolean compile-time check.
-/

namespace VeronaVObject

/-- Compile-time facts about a candidate managed type T, the template
argument of V. `declares_notified` / `declares_finaliser` / `declares_trace`
record whether T declares a member of that name (any signature);
`notified_sig_ok` / `finaliser_sig_ok` record whether that member, when
declared, has the signature the trampoline body expects;
`trivially_destructible` is std::is_trivially_destructible_v;
`rawObjSize` feeds the external footprint function; `userTrace` is the
effect of T's own trace body on the collector worklist, when declared. -/
structure TypeInfo where
  declares_notified : Bool
  notified_sig_ok : Bool
  declares_finaliser : Bool
  finaliser_sig_ok : Bool
  declares_trace : Bool
  trivially_destructible : Bool
  rawObjSize : Nat
  userTrace : List Nat → List Nat

/-- Modelled from the spec: the external footprint function
sizeof-for-runtime(T) -> size (vsizeof in the source, defined outside
src/). Treated as a pure function of the type, per the spec. -/
def vsizeof (t : TypeInfo) : Nat := t.rawObjSize

/-- Source has_notified: detects a member named notified by name only
(decltype of a member pointer to T::notified), never reading the
signature. -/
def has_notified (t : TypeInfo) : Bool := t.declares_notified

/-- Source has_finaliser: detects a member named finaliser by name only. -/
def has_finaliser (t : TypeInfo) : Bool := t.declares_finaliser

/-- Source has_destructor: true iff T is not trivially destructible. -/
def has_destructor (t : TypeInfo) : Bool := !t.trivially_destructible

/-- The four trampolines V synthesizes; each downcasts the opaque object
pointer to T* and forwards to the corresponding behavior of T. -/
inductive Tramp where
  | gcTrace
  | gcFinal
  | gcNotified
  | gcDestructor
  deriving DecidableEq, Repr

/-- The per-type Descriptor record: size plus one optional function
reference per lifecycle behavior; none is the absent marker (nullptr). -/
structure Descriptor where
  size : Nat
  trace : Option Tramp
  finalizer : Option Tramp
  notified : Option Tramp
  destructor : Option Tramp
  deriving DecidableEq, Repr

/-- Source V::desc: the statically allocated per-type descriptor, built
from vsizeof and the three conditional-expression fields of lines 82-87
of vobject.h (trampoline when the capability is present, nullptr
otherwise); trace is unconditionally gc_trace. -/
def desc (t : TypeInfo) : Descriptor :=
  { size := vsizeof t
    trace := some Tramp.gcTrace
    finalizer := if has_finaliser t then some Tramp.gcFinal else none
    notified := if has_notified t then some Tramp.gcNotified else none
    destructor := if has_destructor t then some Tramp.gcDestructor else none }

/-- Name lookup for the call ((T*)o)->trace(st) inside gc_trace: T derives
from V, so a trace member declared by T hides V's own private fallback
`void trace(ObjectStack&) \x7b\x7d` (line 89); when T declares none, the
fallback with its empty body is found and the worklist is unchanged. -/
def tMethodTrace (t : TypeInfo) (st : List Nat) : List Nat :=
  if t.declares_trace then t.userTrace st else st

/-- Source V::gc_trace body: downcast and forward to whatever the name
trace resolves to on T. -/
def gc_trace_run (t : TypeInfo) (st : List Nat) : List Nat := tMethodTrace t st

/-- The Base template argument of V. In C++ it ranges over arbitrary
classes; `other` stands for any class that is neither Object nor Cown. -/
inductive BaseClass where
  | object
  | cown
  | other (id : Nat)
  deriving DecidableEq, Repr

/-- The RegionType template argument of V (source enum values Trace,
Arena, Cown). -/
inductive RegionType where
  | trace
  | arena
  | cown
  deriving DecidableEq, Repr

/-- The region class selected by RegionType_to_class in the source. -/
inductive RegionClass where
  | regionTrace
  | regionArena
  | regionCown
  deriving DecidableEq, Repr

/-- Source RegionType_to_class: maps the region-type tag to the region
allocator class used by the operator new bodies. -/
def RegionType_to_class : RegionType → RegionClass
  | RegionType.trace => RegionClass.regionTrace
  | RegionType.arena => RegionClass.regionArena
  | RegionType.cown => RegionClass.regionCown

/-- First static assert of V (lines 50-53): the ternary
is_same(Base, Object) ? rt == Trace or rt == Arena : rt == Cown. -/
def static_assert_region_matches_base : BaseClass → RegionType → Bool
  | BaseClass.object, rt =>
      decide (rt = RegionType.trace) || decide (rt = RegionType.arena)
  | _, rt => decide (rt = RegionType.cown)

/-- Second static assert of V (lines 54-56): Base must be Object or Cown. -/
def static_assert_base_kind (base : BaseClass) : Bool :=
  decide (base = BaseClass.object) || decide (base = BaseClass.cown)

/-- A V instantiation compiles exactly when both static asserts hold. -/
def V_compiles (base : BaseClass) (rt : RegionType) : Bool :=
  static_assert_region_matches_base base rt && static_assert_base_kind base

/-- Which allocator handle an operator new body passes on:
ThreadAlloc::get() or a caller-supplied Alloc*. -/
inductive AllocRef where
  | threadAlloc
  | supplied (id : Nat)
  deriving DecidableEq, Repr

/-- Raw storage obtained from an allocator: the result of
alloc->alloc(size) in the cown branch of operator new. -/
inductive RawStorage where
  | allocated (a : AllocRef) (size : Nat)
  deriving DecidableEq, Repr

/-- Modelled from the spec: the calls an operator new body (or the
get_alloc_epoch helper) makes into the external collaborators of section
6 of the spec - region.create, ownership register, nested region
allocation, and the read-only allocation-epoch query
current_allocation_epoch(); the collaborator bodies live outside src/. -/
inductive ExtCall where
  | regionCreate (rc : RegionClass) (a : AllocRef) (size : Nat) (d : Descriptor)
  | registerObject (s : RawStorage) (d : Descriptor)
  | regionAllocIn (rc : RegionClass) (a : AllocRef) (parent : Nat) (size : Nat) (d : Descriptor)
  | schedulerAllocEpoch
  deriving DecidableEq, Repr

/-- Source operator new(size_t), lines 99-107: for an Object base,
RegionClass::create(ThreadAlloc::get(), desc); for any other base,
Object::register_object(ThreadAlloc::get()->alloc(desc.size), desc). The
denotation is the sequence of collaborator calls the body performs. -/
def operatorNewDefault (t : TypeInfo) (base : BaseClass) (rt : RegionType) : List ExtCall :=
  if base = BaseClass.object then
    [ExtCall.regionCreate (RegionType_to_class rt) AllocRef.threadAlloc (vsizeof t) (desc t)]
  else
    [ExtCall.registerObject (RawStorage.allocated AllocRef.threadAlloc (vsizeof t)) (desc t)]

/-- Source operator new(size_t, Alloc*), lines 109-115: same routing with
the caller-supplied allocator in place of ThreadAlloc::get(). -/
def operatorNewAlloc (t : TypeInfo) (base : BaseClass) (rt : RegionType) (a : AllocRef) :
    List ExtCall :=
  if base = BaseClass.object then
    [ExtCall.regionCreate (RegionType_to_class rt) a (vsizeof t) (desc t)]
  else
    [ExtCall.registerObject (RawStorage.allocated a (vsizeof t)) (desc t)]

/-- Source operator new(size_t, Object*), lines 117-122: static assert
that Base is Object (none models the compile failure), then
RegionClass::alloc(ThreadAlloc::get(), region, desc) placing the object
in the parent object's region. -/
def operatorNewParent (t : TypeInfo) (base : BaseClass) (rt : RegionType) (parent : Nat) :
    Option (List ExtCall) :=
  if base = BaseClass.object then
    some [ExtCall.regionAllocIn (RegionType_to_class rt) AllocRef.threadAlloc parent
      (vsizeof t) (desc t)]
  else none

/-- Source operator new(size_t, Alloc*, Object*), lines 124-129: the same
with a caller-supplied allocator. -/
def operatorNewAllocParent (t : TypeInfo) (base : BaseClass) (rt : RegionType) (a : AllocRef)
    (parent : Nat) : Option (List ExtCall) :=
  if base = BaseClass.object then
    some [ExtCall.regionAllocIn (RegionType_to_class rt) a parent (vsizeof t) (desc t)]
  else none

/-- Modelled from the spec: the scheduler collaborator, carrying the
current allocation epoch exposed by current_allocation_epoch(). -/
structure SchedulerState where
  allocEpoch : Nat
  deriving DecidableEq, Repr

/-- Modelled from the spec: Scheduler::alloc_epoch(), the read-only query
returning the current allocation epoch marker. -/
def Scheduler.alloc_epoch (s : SchedulerState) : Nat := s.allocEpoch

/-- Source V::get_alloc_epoch, lines 91-94: returns
Scheduler::alloc_epoch(). -/
def get_alloc_epoch (s : SchedulerState) : Nat := Scheduler.alloc_epoch s

/-- Collaborator calls performed by the get_alloc_epoch body: a single
query of the scheduler's allocation epoch. -/
def get_alloc_epoch_calls : List ExtCall := [ExtCall.schedulerAllocEpoch]

/-- Runtime state visible to the deallocation entry points; the delete
bodies in the source are empty, so they may touch none of it. -/
structure RtState where
  liveObjects : List Nat
  deriving DecidableEq, Repr

/-- Source operator delete(void*), lines 131-136: empty body. -/
def operatorDeletePtr (s : RtState) (_p : Nat) : RtState := s

/-- Source operator delete(void*, size_t), lines 138-143: empty body. -/
def operatorDeleteSized (s : RtState) (_p _size : Nat) : RtState := s

/-- Source operator delete(void*, Alloc*), lines 145-150: empty body. -/
def operatorDeleteAlloc (s : RtState) (_p : Nat) (_a : AllocRef) : RtState := s

/-- Source operator delete(void*, Object*), lines 152-157: empty body. -/
def operatorDeleteParent (s : RtState) (_p _parent : Nat) : RtState := s

/-- Source operator delete(void*, Alloc*, Object*), lines 159-164: empty
body. -/
def operatorDeleteAllocParent (s : RtState) (_p : Nat) (_a : AllocRef) (_parent : Nat) :
    RtState := s

/-- Whether a member function of V is provided with a body or explicitly
deleted. -/
inductive MemberStatus where
  | provided
  | deleted
  deriving DecidableEq, Repr

/-- The allocation and deallocation member functions V declares, with the
status each has in the source: the scalar forms all have bodies; the
array forms (lines 166-168) are all explicitly deleted. -/
structure VOperatorInterface where
  newDefault : MemberStatus
  newAllocArg : MemberStatus
  newParentArg : MemberStatus
  newAllocParentArg : MemberStatus
  deletePtr : MemberStatus
  deleteSized : MemberStatus
  deleteAllocArg : MemberStatus
  deleteParentArg : MemberStatus
  deleteAllocParentArg : MemberStatus
  newArray : MemberStatus
  deleteArray : MemberStatus
  deleteArraySized : MemberStatus
  deriving DecidableEq, Repr

/-- The operator surface of V as declared in the source. -/
def vOperatorInterface : VOperatorInterface :=
  { newDefault := MemberStatus.provided
    newAllocArg := MemberStatus.provided
    newParentArg := MemberStatus.provided
    newAllocParentArg := MemberStatus.provided
    deletePtr := MemberStatus.provided
    deleteSized := MemberStatus.provided
    deleteAllocArg := MemberStatus.provided
    deleteParentArg := MemberStatus.provided
    deleteAllocParentArg := MemberStatus.provided
    newArray := MemberStatus.deleted
    deleteArray := MemberStatus.deleted
    deleteArraySized := MemberStatus.deleted }

/-- A concrete managed type for the closed counterexample of claim C9: it
declares a correctly typed trace member and nothing else, with raw
footprint 16. -/
def sampleType : TypeInfo :=
  { declares_notified := false
    notified_sig_ok := true
    declares_finaliser := false
    finaliser_sig_ok := true
    declares_trace := true
    trivially_destructible := true
    rawObjSize := 16
    userTrace := fun st => st }

/-- A concrete managed type declaring no trace member at all, for the
witness of claim C10. -/
def noTraceType : TypeInfo :=
  { declares_notified := false
    notified_sig_ok := true
    declares_finaliser := false
    finaliser_sig_ok := true
    declares_trace := false
    trivially_destructible := true
    rawObjSize := 8
    userTrace := fun st => 0 :: st }

/-- C1: each optional descriptor field is the corresponding trampoline
exactly when the capability is present, and the absent marker (none)
otherwise: finalizer is none iff T has no member named finaliser,
notified is none iff T has no member named notified, and destructor is
none iff T is trivially destructible. -/
theorem descriptor_optional_fields_iff_capability (t : TypeInfo) :
    ((desc t).finalizer = none ↔ t.declares_finaliser = false) ∧
    ((desc t).finalizer = some Tramp.gcFinal ↔ t.declares_finaliser = true) ∧
    ((desc t).notified = none ↔ t.declares_notified = false) ∧
    ((desc t).notified = some Tramp.gcNotified ↔ t.declares_notified = true) ∧
    ((desc t).destructor = none ↔ t.trivially_destructible = true) ∧
    ((desc t).destructor = some Tramp.gcDestructor ↔ t.trivially_destructible = false) := by
  cases hf : t.declares_finaliser <;> cases hn : t.declares_notified <;>
    cases hd : t.trivially_destructible <;>
    simp [desc, has_finaliser, has_notified, has_destructor, hf, hn, hd]

/-- C2: for every managed type the descriptor's trace field is never the
absent marker: it is always the gc_trace trampoline, whose body forwards
the worklist to whatever the name trace resolves to on T. -/
theorem descriptor_trace_always_present (t : TypeInfo) (st : List Nat) :
    (desc t).trace ≠ none ∧ (desc t).trace = some Tramp.gcTrace ∧
    gc_trace_run t st = tMethodTrace t st := by
  exact ⟨by simp [desc], rfl, rfl⟩

/-- C3: has_notified and has_finaliser are true exactly when T declares a
member of that name, independent of the member's signature: flipping the
signature-compatibility fact never changes the reported capability. -/
theorem capability_detection_name_based (t : TypeInfo) :
    has_notified t = t.declares_notified ∧
    has_finaliser t = t.declares_finaliser ∧
    has_notified { t with notified_sig_ok := false } = has_notified t ∧
    has_notified { t with notified_sig_ok := true } = has_notified t ∧
    has_finaliser { t with finaliser_sig_ok := false } = has_finaliser t ∧
    has_finaliser { t with finaliser_sig_ok := true } = has_finaliser t := by
  exact ⟨rfl, rfl, rfl, rfl, rfl, rfl⟩

/-- C4: the no-argument entry point uses the thread allocator and, for an
Object base, performs a region create, while a Cown base allocates from
the general allocator and registers the storage with the ownership
subsystem; the allocator-handle overload performs the same routing with
the supplied allocator. -/
theorem default_and_alloc_new_routing (t : TypeInfo) (rt : RegionType) (a : AllocRef) :
    operatorNewDefault t BaseClass.object rt =
      [ExtCall.regionCreate (RegionType_to_class rt) AllocRef.threadAlloc (vsizeof t)
        (desc t)] ∧
    operatorNewDefault t BaseClass.cown rt =
      [ExtCall.registerObject (RawStorage.allocated AllocRef.threadAlloc (vsizeof t))
        (desc t)] ∧
    operatorNewAlloc t BaseClass.object rt a =
      [ExtCall.regionCreate (RegionType_to_class rt) a (vsizeof t) (desc t)] ∧
    operatorNewAlloc t BaseClass.cown rt a =
      [ExtCall.registerObject (RawStorage.allocated a (vsizeof t)) (desc t)] := by
  refine ⟨?_, ?_, ?_, ?_⟩ <;> simp [operatorNewDefault, operatorNewAlloc]

/-- C5: parent-relative construction compiles only for an Object base
(both the plain and the allocator-handle form), and when it compiles it
allocates inside the region owning the given parent object; for a Cown
base, or any other base, it fails to compile. -/
theorem parent_new_object_base_only (t : TypeInfo) (rt : RegionType) (a : AllocRef)
    (parent i : Nat) :
    operatorNewParent t BaseClass.object rt parent =
      some [ExtCall.regionAllocIn (RegionType_to_class rt) AllocRef.threadAlloc parent
        (vsizeof t) (desc t)] ∧
    operatorNewParent t BaseClass.cown rt parent = none ∧
    operatorNewParent t (BaseClass.other i) rt parent = none ∧
    operatorNewAllocParent t BaseClass.object rt a parent =
      some [ExtCall.regionAllocIn (RegionType_to_class rt) a parent (vsizeof t) (desc t)] ∧
    operatorNewAllocParent t BaseClass.cown rt a parent = none ∧
    operatorNewAllocParent t (BaseClass.other i) rt a parent = none := by
  refine ⟨?_, ?_, ?_, ?_, ?_, ?_⟩ <;> simp [operatorNewParent, operatorNewAllocParent]

/-- C6: a V instantiation passes its compile-time static asserts exactly
when the storage discipline agrees with the base category: Trace or Arena
require the Object base, Cown requires the Cown base, and any other base
is rejected. -/
theorem base_region_wellformedness (base : BaseClass) (rt : RegionType) :
    V_compiles base rt = true ↔
      ((base = BaseClass.object ∧ (rt = RegionType.trace ∨ rt = RegionType.arena)) ∨
        (base = BaseClass.cown ∧ rt = RegionType.cown)) := by
  cases base <;> cases rt <;>
    simp [V_compiles, static_assert_region_matches_base, static_assert_base_kind]

/-- C7: array-form construction and destruction of a managed type are
explicitly deleted, so any array allocation or deallocation fails to
compile. -/
theorem array_forms_deleted :
    vOperatorInterface.newArray = MemberStatus.deleted ∧
    vOperatorInterface.deleteArray = MemberStatus.deleted ∧
    vOperatorInterface.deleteArraySized = MemberStatus.deleted := by
  exact ⟨rfl, rfl, rfl⟩

/-- C8: every explicit deallocation entry point, in each of its five
matching forms, is a no-op: it returns the runtime state unchanged and
releases no storage, for every argument value. -/
theorem delete_overloads_noop (s : RtState) (p sz parent : Nat) (a : AllocRef) :
    operatorDeletePtr s p = s ∧
    operatorDeleteSized s p sz = s ∧
    operatorDeleteAlloc s p a = s ∧
    operatorDeleteParent s p parent = s ∧
    operatorDeleteAllocParent s p a parent = s ∧
    (operatorDeletePtr s p).liveObjects = s.liveObjects := by
  exact ⟨rfl, rfl, rfl, rfl, rfl, rfl⟩

/-- C9 counterexample: at a concrete managed type with Object base and
Trace region, the no-argument allocation entry point performs no
allocation-epoch query at all (nor do the other entry points), refuting
the claim that every allocation entry point queries the current
allocation epoch and forwards the marker. -/
theorem alloc_entry_points_no_epoch_query_cex :
    ExtCall.schedulerAllocEpoch ∉
      operatorNewDefault sampleType BaseClass.object RegionType.trace ∧
    ExtCall.schedulerAllocEpoch ∉
      operatorNewDefault sampleType BaseClass.cown RegionType.cown ∧
    ExtCall.schedulerAllocEpoch ∉
      operatorNewAlloc sampleType BaseClass.object RegionType.trace (AllocRef.supplied 0) ∧
    ExtCall.schedulerAllocEpoch ∉
      (operatorNewParent sampleType BaseClass.object RegionType.trace 7).getD [] ∧
    ExtCall.schedulerAllocEpoch ∉
      (operatorNewAllocParent sampleType BaseClass.object RegionType.trace
        (AllocRef.supplied 0) 7).getD [] := by
  decide

/-- C9 amended: the wrapper defines a static helper get_alloc_epoch that
queries and returns the scheduler's current allocation epoch, but none of
the allocation entry points query or forward it: each operator new passes
only allocator, size, optional parent and descriptor to its collaborator. -/
theorem alloc_epoch_helper_unused_by_new (t : TypeInfo) (base : BaseClass) (rt : RegionType)
    (a : AllocRef) (parent : Nat) (s : SchedulerState) :
    get_alloc_epoch s = Scheduler.alloc_epoch s ∧
    ExtCall.schedulerAllocEpoch ∈ get_alloc_epoch_calls ∧
    ExtCall.schedulerAllocEpoch ∉ operatorNewDefault t base rt ∧
    ExtCall.schedulerAllocEpoch ∉ operatorNewAlloc t base rt a ∧
    ExtCall.schedulerAllocEpoch ∉ (operatorNewParent t base rt parent).getD [] ∧
    ExtCall.schedulerAllocEpoch ∉ (operatorNewAllocParent t base rt a parent).getD [] := by
  refine ⟨rfl, by simp [get_alloc_epoch_calls], ?_, ?_, ?_, ?_⟩ <;> cases base <;>
    simp [operatorNewDefault, operatorNewAlloc, operatorNewParent, operatorNewAllocParent]

/-- C10: a managed type that declares no trace member still gets a
non-absent trace trampoline in its descriptor, and that trampoline falls
back to the wrapper's private no-op trace, enumerating no references. -/
theorem missing_trace_falls_back_noop (t : TypeInfo) (st : List Nat)
    (h : t.declares_trace = false) :
    (desc t).trace = some Tramp.gcTrace ∧ gc_trace_run t st = st := by
  refine ⟨rfl, ?_⟩
  simp [gc_trace_run, tMethodTrace, h]

/-- Witness for C10: the concrete no-trace type satisfies the hypothesis
and the conclusion at a concrete worklist. -/
theorem missing_trace_falls_back_noop_witness :
    noTraceType.declares_trace = false ∧
    ((desc noTraceType).trace = some Tramp.gcTrace ∧
      gc_trace_run noTraceType [3, 4] = [3, 4]) :=
  ⟨rfl, missing_trace_falls_back_noop noTraceType [3, 4] rfl⟩

end VeronaVObject
